import Mathlib

/-!
Verification development for the Unscented Kalman Filter in `src/ukf.cpp`
(CTRV motion model, lidar/radar measurement updates).  The C++ code is
shallowly embedded over the real numbers: `double` arithmetic becomes `ℝ`,
Eigen vectors/matrices become functions `Fin n → ℝ` / `Matrix (Fin n) (Fin m) ℝ`,
and Eigen's `llt().matrixL()` becomes the Cholesky–Banachiewicz recursion.
Division by zero is total in Lean (`x / 0 = 0`), which models the unguarded
divisions of the source.
-/

noncomputable section

open Real

/-- State dimension `n_x_ = 5` (ukf.cpp line 23). -/
def n_x_ : ℕ := 5

/-- Augmented dimension `n_aug_ = 7` (ukf.cpp line 26). -/
def n_aug_ : ℕ := 7

/-- Spreading parameter `lambda_ = 3 - n_aug_` (ukf.cpp line 62). -/
def lambda_ : ℝ := 3 - (n_aug_ : ℝ)

/-- Process noise standard deviation, longitudinal acceleration (line 35). -/
def std_a_ : ℝ := 3.80

/-- Process noise standard deviation, yaw acceleration (line 38). -/
def std_yawdd_ : ℝ := 0.3

/-- Laser measurement noise standard deviations (lines 41, 44). -/
def std_laspx_ : ℝ := 0.15

/-- Laser measurement noise standard deviation, y position (line 44). -/
def std_laspy_ : ℝ := 0.15

/-- Radar measurement noise standard deviation, radius (line 47). -/
def std_radr_ : ℝ := 0.3

/-- Radar measurement noise standard deviation, angle (line 50). -/
def std_radphi_ : ℝ := 0.03

/-- Radar measurement noise standard deviation, radius change (line 53). -/
def std_radrd_ : ℝ := 0.3

/-- Sensor kind of a `MeasurementPackage`. -/
inductive SensorType where
  | RADAR : SensorType
  | LASER : SensorType

/-- The measurement consumed by `ProcessMeasurement`: sensor tag, raw value
vector (radar uses indices 0..2, lidar indices 0..1) and integer timestamp
in microseconds. -/
structure MeasurementPackage where
  sensor_type_ : SensorType
  raw_measurements_ : Fin 3 → ℝ
  timestamp_ : ℤ

/-- Persistent fields of the `UKF` object (ukf.h / ukf.cpp constructor).
`x_aug` and `P_aug` are fully overwritten by every `GenerateSigmaPoints`
call, so they are modelled as locals of that function. -/
structure UKFState where
  use_laser_ : Bool
  use_radar_ : Bool
  is_initialized_ : Bool
  x_pred_ : Fin 5 → ℝ
  P_pred_ : Matrix (Fin 5) (Fin 5) ℝ
  Xsig_pred_ : Matrix (Fin 5) (Fin 15) ℝ
  Xsig_aug : Matrix (Fin 7) (Fin 15) ℝ
  weights_ : Fin 15 → ℝ
  previous_timestamp_ : ℤ

/-- The `UKF::UKF()` constructor (ukf.cpp lines 13-72): it sets the two
sensor toggles to `true` and `is_initialized_` to `false`, and merely
allocates `x_pred_`, `P_pred_`, `Xsig_pred_`, `Xsig_aug` and `weights_`
without writing their entries; `previous_timestamp_` is not assigned either.
The unspecified contents of those allocations are the parameters. -/
def mkUKF (x0 : Fin 5 → ℝ) (P0 : Matrix (Fin 5) (Fin 5) ℝ)
    (Xp0 : Matrix (Fin 5) (Fin 15) ℝ) (Xa0 : Matrix (Fin 7) (Fin 15) ℝ)
    (w0 : Fin 15 → ℝ) (t0 : ℤ) : UKFState :=
  ⟨true, true, false, x0, P0, Xp0, Xa0, w0, t0⟩

/-- The loop `while (x > M_PI) x -= 2*M_PI` (ukf.cpp lines 256, 360, 392,
399, 412). -/
def wrapDown (θ : ℝ) : ℝ :=
  if h : Real.pi < θ then wrapDown (θ - 2 * Real.pi) else θ
termination_by (⌈(θ - Real.pi) / (2 * Real.pi)⌉).toNat
decreasing_by
  have hp : (0 : ℝ) < 2 * Real.pi := by positivity
  have h2 : (θ - 2 * Real.pi - Real.pi) / (2 * Real.pi)
      = (θ - Real.pi) / (2 * Real.pi) - 1 := by field_simp; ring
  have h3 : 0 < ⌈(θ - Real.pi) / (2 * Real.pi)⌉ :=
    Int.ceil_pos.mpr (div_pos (by linarith) hp)
  rw [h2, Int.ceil_sub_one]
  omega

/-- The loop `while (x < -M_PI) x += 2*M_PI` (ukf.cpp lines 257, 361, 393,
400, 413). -/
def wrapUp (θ : ℝ) : ℝ :=
  if h : θ < -Real.pi then wrapUp (θ + 2 * Real.pi) else θ
termination_by (⌈(-Real.pi - θ) / (2 * Real.pi)⌉).toNat
decreasing_by
  have hp : (0 : ℝ) < 2 * Real.pi := by positivity
  have h2 : (-Real.pi - (θ + 2 * Real.pi)) / (2 * Real.pi)
      = (-Real.pi - θ) / (2 * Real.pi) - 1 := by field_simp; ring
  have h3 : 0 < ⌈(-Real.pi - θ) / (2 * Real.pi)⌉ :=
    Int.ceil_pos.mpr (div_pos (by linarith) hp)
  rw [h2, Int.ceil_sub_one]
  omega

/-- The two consecutive wrap loops, as applied by the source to every
heading/bearing residual. -/
def normAngle (θ : ℝ) : ℝ := wrapUp (wrapDown θ)

/-- Cholesky–Banachiewicz recursion: entry `(i, j)` of the lower factor `L`
of a symmetric positive-definite matrix given as `A : ℕ → ℕ → ℝ`.  This is
the model of Eigen's `P_aug.llt().matrixL()` (ukf.cpp line 158). -/
def cholAux (A : ℕ → ℕ → ℝ) (i j : ℕ) : ℝ :=
  if i < j then 0
  else if i = j then
    Real.sqrt (A i i - ∑ k ∈ (Finset.range i).attach, (cholAux A i k.1) ^ 2)
  else
    (A i j - ∑ k ∈ (Finset.range j).attach, cholAux A i k.1 * cholAux A j k.1)
      / cholAux A j j
termination_by (i, j)
decreasing_by
  all_goals
    first
      | (have hk := Finset.mem_range.mp k.2
         first
           | exact Prod.Lex.right _ (by omega)
           | exact Prod.Lex.left _ _ (by omega))
      | exact Prod.Lex.left _ _ (by omega)

/-- Augmented mean vector `x_aug = [x; 0; 0]` (ukf.cpp lines 146-149). -/
def augMeanFun (x : Fin 5 → ℝ) : Fin 7 → ℝ := fun i =>
  if h : (i : ℕ) < 5 then x ⟨i, h⟩ else 0

/-- Augmented covariance `P_aug = blockdiag(P, std_a_^2, std_yawdd_^2)`
(ukf.cpp lines 152-155), as the ℕ-indexed function handed to the Cholesky
recursion. -/
def augCovFun (P : Matrix (Fin 5) (Fin 5) ℝ) : ℕ → ℕ → ℝ := fun a b =>
  if ha : a < 5 then (if hb : b < 5 then P ⟨a, ha⟩ ⟨b, hb⟩ else 0)
  else if a = 5 ∧ b = 5 then std_a_ * std_a_
  else if a = 6 ∧ b = 6 then std_yawdd_ * std_yawdd_
  else 0

/-- The sigma-point matrix written by the loop in ukf.cpp lines 161-167:
column 0 is `x_aug`, column `i+1` is `x_aug + sqrt(lambda_+n_aug_)*L.col(i)`
and column `i+1+n_aug_` is `x_aug - sqrt(lambda_+n_aug_)*L.col(i)`. -/
def sigmaColumns (xa : Fin 7 → ℝ) (L : ℕ → ℕ → ℝ) : Matrix (Fin 7) (Fin 15) ℝ :=
  Matrix.of fun r c =>
    if (c : ℕ) = 0 then xa r
    else if (c : ℕ) ≤ 7 then
      xa r + Real.sqrt (lambda_ + (n_aug_ : ℝ)) * L r ((c : ℕ) - 1)
    else
      xa r - Real.sqrt (lambda_ + (n_aug_ : ℝ)) * L r ((c : ℕ) - 8)

/-- `UKF::GenerateSigmaPoints` (ukf.cpp lines 144-170). -/
def GenerateSigmaPoints (s : UKFState) : Matrix (Fin 7) (Fin 15) ℝ :=
  sigmaColumns (augMeanFun s.x_pred_) (cholAux (augCovFun s.P_pred_))

/-- `UKF::PredictSigmaPoints` (ukf.cpp lines 178-225): CTRV propagation of
each augmented sigma point over `delta_t`, with the closed-form integration
when `fabs(yawd) > 0.001` and first-order Euler integration otherwise,
plus the process-noise contributions. -/
def PredictSigmaPoints (X : Matrix (Fin 7) (Fin 15) ℝ) (delta_t : ℝ) :
    Matrix (Fin 5) (Fin 15) ℝ :=
  Matrix.of fun r i =>
    if r = 0 then
      (if 0.001 < |X 4 i| then
        X 0 i + X 2 i / X 4 i * (Real.sin (X 3 i + X 4 i * delta_t) - Real.sin (X 3 i))
      else X 0 i + X 2 i * delta_t * Real.cos (X 3 i))
        + 0.5 * X 5 i * (delta_t * delta_t) * Real.cos (X 3 i)
    else if r = 1 then
      (if 0.001 < |X 4 i| then
        X 1 i + X 2 i / X 4 i * (Real.cos (X 3 i) - Real.cos (X 3 i + X 4 i * delta_t))
      else X 1 i + X 2 i * delta_t * Real.sin (X 3 i))
        + 0.5 * X 5 i * (delta_t * delta_t) * Real.sin (X 3 i)
    else if r = 2 then X 2 i + X 5 i * delta_t
    else if r = 3 then (X 3 i + X 4 i * delta_t) + 0.5 * X 6 i * (delta_t * delta_t)
    else X 4 i + X 6 i * delta_t

/-- The weights assigned in `UKF::PredictMeanAndCovariance`
(ukf.cpp lines 233-237). -/
def weightsVec : Fin 15 → ℝ := fun i =>
  if (i : ℕ) = 0 then lambda_ / (lambda_ + (n_aug_ : ℝ))
  else 0.5 / ((n_aug_ : ℝ) + lambda_)

/-- `UKF::PredictMeanAndCovariance` (ukf.cpp lines 232-264): weighted mean
and weighted covariance of the predicted sigma points, the heading component
(index 3) of each residual being wrapped by the two while loops before the
outer product. -/
def PredictMeanAndCovariance (Xp : Matrix (Fin 5) (Fin 15) ℝ) :
    (Fin 5 → ℝ) × Matrix (Fin 5) (Fin 5) ℝ :=
  let x : Fin 5 → ℝ := fun r => ∑ i, weightsVec i * Xp r i
  let xd : Fin 15 → Fin 5 → ℝ := fun i =>
    Function.update (fun r => Xp r i - x r) 3 (normAngle (Xp 3 i - x 3))
  (x, Matrix.of fun r c => ∑ i, weightsVec i * (xd i r * xd i c))

/-- `UKF::Prediction` (ukf.cpp lines 271-275): generate, propagate, reduce;
the results overwrite `Xsig_aug`, `Xsig_pred_`, `weights_`, `x_pred_` and
`P_pred_`. -/
def Prediction (s : UKFState) (delta_t : ℝ) : UKFState :=
  let Xa := GenerateSigmaPoints s
  let Xp := PredictSigmaPoints Xa delta_t
  let mc := PredictMeanAndCovariance Xp
  { s with Xsig_aug := Xa, Xsig_pred_ := Xp, weights_ := weightsVec,
           x_pred_ := mc.1, P_pred_ := mc.2 }

/-- The lidar observation matrix `H_` (ukf.cpp lines 284-286). -/
def Hlaser : Matrix (Fin 2) (Fin 5) ℝ := !![1, 0, 0, 0, 0; 0, 1, 0, 0, 0]

/-- The lidar measurement-noise covariance `R_` (ukf.cpp lines 287-291),
hardcoded as 0.0225 on the diagonal. -/
def Rlaser : Matrix (Fin 2) (Fin 2) ℝ := !![0.0225, 0; 0, 0.0225]

/-- `UKF::UpdateLidar` (ukf.cpp lines 281-307): standard linear Kalman
correction `x += K*(z - H*x)`, `P = (I - K*H)*P`. -/
def UpdateLidar (s : UKFState) (m : MeasurementPackage) : UKFState :=
  let z : Fin 2 → ℝ := fun i => m.raw_measurements_ (Fin.castLE (by norm_num) i)
  let y : Fin 2 → ℝ := fun i => z i - Hlaser.mulVec s.x_pred_ i
  let S : Matrix (Fin 2) (Fin 2) ℝ := Hlaser * s.P_pred_ * Hlaser.transpose + Rlaser
  let K : Matrix (Fin 5) (Fin 2) ℝ := s.P_pred_ * Hlaser.transpose * S⁻¹
  { s with x_pred_ := fun r => s.x_pred_ r + K.mulVec y r,
           P_pred_ := (1 - K * Hlaser) * s.P_pred_ }

/-- Four-quadrant arctangent, the model of C `atan2(y, x)` used in the radar
measurement mapping (ukf.cpp line 340); `atan2 0 0 = 0` as in the C library. -/
def atan2 (y x : ℝ) : ℝ :=
  if 0 < x then Real.arctan (y / x)
  else if x < 0 then
    (if 0 ≤ y then Real.arctan (y / x) + Real.pi else Real.arctan (y / x) - Real.pi)
  else if 0 < y then Real.pi / 2
  else if y < 0 then -(Real.pi / 2)
  else 0

/-- The radar measurement-noise covariance `R` (ukf.cpp lines 367-370). -/
def Rradar : Matrix (Fin 3) (Fin 3) ℝ :=
  !![std_radr_ * std_radr_, 0, 0;
     0, std_radphi_ * std_radphi_, 0;
     0, 0, std_radrd_ * std_radrd_]

/-- The measurement-space mapping of the predicted sigma points in
`UKF::UpdateRadar` (ukf.cpp lines 325-343): range, bearing and range-rate;
the range-rate division by `sqrt(p_x*p_x + p_y*p_y)` is unguarded. -/
def radarZsig (Xp : Matrix (Fin 5) (Fin 15) ℝ) : Matrix (Fin 3) (Fin 15) ℝ :=
  Matrix.of fun r i =>
    if r = 0 then Real.sqrt (Xp 0 i * Xp 0 i + Xp 1 i * Xp 1 i)
    else if r = 1 then atan2 (Xp 1 i) (Xp 0 i)
    else (Xp 0 i * (Real.cos (Xp 3 i) * Xp 2 i) + Xp 1 i * (Real.sin (Xp 3 i) * Xp 2 i))
      / Real.sqrt (Xp 0 i * Xp 0 i + Xp 1 i * Xp 1 i)

/-- `UKF::UpdateRadar` (ukf.cpp lines 313-418): unscented correction in
measurement space with bearing and heading residuals wrapped by the while
loops. -/
def UpdateRadar (s : UKFState) (m : MeasurementPackage) : UKFState :=
  let Zsig := radarZsig s.Xsig_pred_
  let z_pred : Fin 3 → ℝ := fun r => ∑ i, s.weights_ i * Zsig r i
  let zd : Fin 15 → Fin 3 → ℝ := fun i =>
    Function.update (fun r => Zsig r i - z_pred r) 1 (normAngle (Zsig 1 i - z_pred 1))
  let S : Matrix (Fin 3) (Fin 3) ℝ :=
    (Matrix.of fun r c => ∑ i, s.weights_ i * (zd i r * zd i c)) + Rradar
  let xd : Fin 15 → Fin 5 → ℝ := fun i =>
    Function.update (fun r => s.Xsig_pred_ r i - s.x_pred_ r) 3
      (normAngle (s.Xsig_pred_ 3 i - s.x_pred_ 3))
  let Tc : Matrix (Fin 5) (Fin 3) ℝ :=
    Matrix.of fun r c => ∑ i, s.weights_ i * (xd i r * zd i c)
  let K : Matrix (Fin 5) (Fin 3) ℝ := Tc * S⁻¹
  let zdm : Fin 3 → ℝ :=
    Function.update (fun r => m.raw_measurements_ r - z_pred r) 1
      (normAngle (m.raw_measurements_ 1 - z_pred 1))
  { s with x_pred_ := fun r => s.x_pred_ r + K.mulVec zdm r,
           P_pred_ := s.P_pred_ - K * S * K.transpose }

/-- `UKF::ProcessMeasurement` (ukf.cpp lines 80-138).  On the first call it
seeds `x_pred_` from the measurement, records the timestamp and marks the
filter initialized.  On every later call it computes `delta_t` in seconds,
runs `Prediction` and then dispatches on the sensor tag alone — the
`use_laser_` / `use_radar_` toggles are never consulted.  (The C++ casts
radar range/bearing through `float`; the embedding keeps them real.) -/
def ProcessMeasurement (s : UKFState) (m : MeasurementPackage) : UKFState :=
  if s.is_initialized_ = false then
    match m.sensor_type_ with
    | SensorType.RADAR =>
        { s with
          x_pred_ := ![m.raw_measurements_ 0 * Real.cos (m.raw_measurements_ 1),
                       m.raw_measurements_ 0 * Real.sin (m.raw_measurements_ 1), 0, 0, 0],
          previous_timestamp_ := m.timestamp_,
          is_initialized_ := true }
    | SensorType.LASER =>
        { s with
          x_pred_ := ![m.raw_measurements_ 0, m.raw_measurements_ 1, 0, 0, 0],
          previous_timestamp_ := m.timestamp_,
          is_initialized_ := true }
  else
    let delta_t : ℝ := ((m.timestamp_ - s.previous_timestamp_ : ℤ) : ℝ) / 1000000
    let s1 := Prediction s delta_t
    let s2 := match m.sensor_type_ with
      | SensorType.RADAR => UpdateRadar s1 m
      | SensorType.LASER => UpdateLidar s1 m
    { s2 with previous_timestamp_ := m.timestamp_ }

/-- Concrete positive-definite construction-time contents for `P_pred_`
used in the counterexample runs (the constructor never writes `P_pred_`,
so any contents are possible at the first call). -/
def P0scn : Matrix (Fin 5) (Fin 5) ℝ :=
  !![1, 0, 0, 1, 0;
     0, 1, 0, 0, 0;
     0, 0, 1, 0, 0;
     1, 0, 0, 2, 0;
     0, 0, 0, 0, 1]

/-- First scenario measurement: lidar `(0, 0)` at timestamp 0. -/
def m1scn : MeasurementPackage := ⟨SensorType.LASER, ![0, 0, 0], 0⟩

/-- Second scenario measurement: lidar `(4, 0)` at timestamp 0. -/
def m2scn : MeasurementPackage := ⟨SensorType.LASER, ![4, 0, 0], 0⟩

/-- Scenario start state: a freshly constructed filter whose uninitialized
`P_pred_` happens to hold `P0scn`, with the lidar toggle set to `b`. -/
def s0scn (b : Bool) : UKFState :=
  { mkUKF (fun _ => 0) P0scn 0 0 (fun _ => 0) 0 with use_laser_ := b }

/-- Scenario state after the warm-up (first) call. -/
def sInitScn (b : Bool) : UKFState := ProcessMeasurement (s0scn b) m1scn

/-- Scenario state after the second call. -/
def sFinalScn (b : Bool) : UKFState := ProcessMeasurement (sInitScn b) m2scn

/-- The value of `Xsig_pred_` produced by the scenario's second call
(elapsed time 0, state mean 0, covariance `P0scn`): tabulated explicitly. -/
def XPscn : Matrix (Fin 5) (Fin 15) ℝ :=
  Matrix.of fun r c =>
    if (r : ℕ) = 0 then
      (if (c : ℕ) = 1 then Real.sqrt 3 else if (c : ℕ) = 8 then -Real.sqrt 3 else 0)
    else if (r : ℕ) = 1 then
      (if (c : ℕ) = 2 then Real.sqrt 3 else if (c : ℕ) = 9 then -Real.sqrt 3 else 0)
    else if (r : ℕ) = 2 then
      (if (c : ℕ) = 3 then Real.sqrt 3 else if (c : ℕ) = 10 then -Real.sqrt 3 else 0)
    else if (r : ℕ) = 3 then
      (if (c : ℕ) = 1 ∨ (c : ℕ) = 4 then Real.sqrt 3
       else if (c : ℕ) = 8 ∨ (c : ℕ) = 11 then -Real.sqrt 3 else 0)
    else (if (c : ℕ) = 5 then Real.sqrt 3 else if (c : ℕ) = 12 then -Real.sqrt 3 else 0)

/-- Witness sigma matrix with zero yaw rate (Euler branch). -/
def XwA : Matrix (Fin 7) (Fin 15) ℝ := Matrix.of fun _ _ => 0

/-- Witness sigma matrix with yaw rate 1 (closed-form branch). -/
def XwB : Matrix (Fin 7) (Fin 15) ℝ := Matrix.of fun r _ => if r = 4 then 1 else 0

/-- Witness predicted-sigma matrix with `p_x = p_y = 0` and speed 5. -/
def Xw7 : Matrix (Fin 5) (Fin 15) ℝ := Matrix.of fun r _ => if r = 2 then 5 else 0

/-- Witness measurement: radar, range 2, bearing 0, at timestamp 5. -/
def cm6 : MeasurementPackage := ⟨SensorType.RADAR, ![2, 0, 0], 5⟩

/-- Witness state: a freshly constructed filter with concrete junk contents. -/
def cs6 : UKFState := mkUKF (fun _ => 1) 0 0 0 (fun _ => 0) 0

lemma sum15 (f : Fin 15 → ℝ) :
    ∑ i, f i = f ⟨0, by omega⟩ + f ⟨1, by omega⟩ + f ⟨2, by omega⟩ + f ⟨3, by omega⟩
      + f ⟨4, by omega⟩ + f ⟨5, by omega⟩ + f ⟨6, by omega⟩ + f ⟨7, by omega⟩
      + f ⟨8, by omega⟩ + f ⟨9, by omega⟩ + f ⟨10, by omega⟩ + f ⟨11, by omega⟩
      + f ⟨12, by omega⟩ + f ⟨13, by omega⟩ + f ⟨14, by omega⟩ := by
  rw [Fin.sum_univ_castSucc, Fin.sum_univ_castSucc, Fin.sum_univ_castSucc,
    Fin.sum_univ_castSucc, Fin.sum_univ_castSucc, Fin.sum_univ_castSucc,
    Fin.sum_univ_castSucc, Fin.sum_univ_eight]
  rfl

lemma wrapDown_of_le {θ : ℝ} (h : θ ≤ Real.pi) : wrapDown θ = θ := by
  rw [wrapDown, dif_neg (not_lt.mpr h)]

lemma wrapDown_le (θ : ℝ) : wrapDown θ ≤ Real.pi := by
  induction θ using wrapDown.induct with
  | case1 θ h ih => rwa [wrapDown, dif_pos h]
  | case2 θ h => rw [wrapDown, dif_neg h]; exact not_lt.mp h

lemma wrapUp_of_ge {θ : ℝ} (h : -Real.pi ≤ θ) : wrapUp θ = θ := by
  rw [wrapUp, dif_neg (not_lt.mpr h)]

lemma wrapUp_ge (θ : ℝ) : -Real.pi ≤ wrapUp θ := by
  induction θ using wrapUp.induct with
  | case1 θ h ih => rwa [wrapUp, dif_pos h]
  | case2 θ h => rw [wrapUp, dif_neg h]; exact not_lt.mp h

lemma wrapUp_le : ∀ θ : ℝ, θ ≤ Real.pi → wrapUp θ ≤ Real.pi := by
  intro θ
  induction θ using wrapUp.induct with
  | case1 θ h ih =>
      intro _
      rw [wrapUp, dif_pos h]
      exact ih (by have := Real.pi_pos; linarith)
  | case2 θ h => intro hle; rwa [wrapUp, dif_neg h]

lemma normAngle_ge (θ : ℝ) : -Real.pi ≤ normAngle θ := wrapUp_ge _

lemma normAngle_le (θ : ℝ) : normAngle θ ≤ Real.pi := wrapUp_le _ (wrapDown_le θ)

lemma normAngle_of_mem {θ : ℝ} (h1 : -Real.pi ≤ θ) (h2 : θ ≤ Real.pi) :
    normAngle θ = θ := by
  rw [normAngle, wrapDown_of_le h2, wrapUp_of_ge h1]

lemma normAngle_idem (θ : ℝ) : normAngle (normAngle θ) = normAngle θ :=
  normAngle_of_mem (normAngle_ge θ) (normAngle_le θ)

lemma normAngle_zero : normAngle 0 = 0 :=
  normAngle_of_mem (by have := Real.pi_pos; linarith) (by have := Real.pi_pos; linarith)

lemma sqrt_three_lt_pi : Real.sqrt 3 < Real.pi := by
  have h1 : Real.sqrt 3 < 2 := by
    nlinarith [Real.sq_sqrt (show (0:ℝ) ≤ 3 by norm_num), Real.sqrt_nonneg 3]
  have h2 := Real.pi_gt_three
  linarith

lemma normAngle_sqrt_three : normAngle (Real.sqrt 3) = Real.sqrt 3 :=
  normAngle_of_mem
    (by have := Real.sqrt_nonneg 3; have := Real.pi_pos; linarith)
    (le_of_lt sqrt_three_lt_pi)

lemma normAngle_neg_sqrt_three : normAngle (-Real.sqrt 3) = -Real.sqrt 3 :=
  normAngle_of_mem (by have := sqrt_three_lt_pi; linarith)
    (by have := Real.sqrt_nonneg 3; have := Real.pi_pos; linarith)

lemma cholAux_upper (A : ℕ → ℕ → ℝ) {i j : ℕ} (h : i < j) : cholAux A i j = 0 := by
  rw [cholAux, if_pos h]

lemma chA00 : cholAux (augCovFun P0scn) 0 0 = 1 := by
  rw [cholAux]
  simp only [show augCovFun P0scn 0 0 = (1:ℝ) from rfl, Finset.range_zero,
    Finset.attach_empty, Finset.sum_empty]
  norm_num [Real.sqrt_one]

lemma chA10 : cholAux (augCovFun P0scn) 1 0 = 0 := by
  rw [cholAux]
  simp only [show augCovFun P0scn 1 0 = (0:ℝ) from rfl, Finset.range_zero,
    Finset.attach_empty, Finset.sum_empty, chA00]
  norm_num

lemma chA11 : cholAux (augCovFun P0scn) 1 1 = 1 := by
  rw [cholAux]
  rw [Finset.sum_attach (Finset.range 1) (fun k => (cholAux (augCovFun P0scn) 1 k) ^ 2)]
  simp only [show augCovFun P0scn 1 1 = (1:ℝ) from rfl, Finset.sum_range_one, chA10]
  norm_num [Real.sqrt_one]

lemma chA20 : cholAux (augCovFun P0scn) 2 0 = 0 := by
  rw [cholAux]
  simp only [show augCovFun P0scn 2 0 = (0:ℝ) from rfl, Finset.range_zero,
    Finset.attach_empty, Finset.sum_empty, chA00]
  norm_num

lemma chA21 : cholAux (augCovFun P0scn) 2 1 = 0 := by
  rw [cholAux]
  rw [Finset.sum_attach (Finset.range 1)
    (fun k => cholAux (augCovFun P0scn) 2 k * cholAux (augCovFun P0scn) 1 k)]
  simp only [show augCovFun P0scn 2 1 = (0:ℝ) from rfl, Finset.sum_range_one,
    chA20, chA10, chA11]
  norm_num

lemma chA22 : cholAux (augCovFun P0scn) 2 2 = 1 := by
  rw [cholAux]
  rw [Finset.sum_attach (Finset.range 2) (fun k => (cholAux (augCovFun P0scn) 2 k) ^ 2)]
  simp only [show augCovFun P0scn 2 2 = (1:ℝ) from rfl, Finset.sum_range_succ,
    Finset.sum_range_one, chA20, chA21]
  norm_num [Real.sqrt_one]

lemma chA30 : cholAux (augCovFun P0scn) 3 0 = 1 := by
  rw [cholAux]
  simp only [show augCovFun P0scn 3 0 = (1:ℝ) from rfl, Finset.range_zero,
    Finset.attach_empty, Finset.sum_empty, chA00]
  norm_num

lemma chA31 : cholAux (augCovFun P0scn) 3 1 = 0 := by
  rw [cholAux]
  rw [Finset.sum_attach (Finset.range 1)
    (fun k => cholAux (augCovFun P0scn) 3 k * cholAux (augCovFun P0scn) 1 k)]
  simp only [show augCovFun P0scn 3 1 = (0:ℝ) from rfl, Finset.sum_range_one,
    chA30, chA10, chA11]
  norm_num

lemma chA32 : cholAux (augCovFun P0scn) 3 2 = 0 := by
  rw [cholAux]
  rw [Finset.sum_attach (Finset.range 2)
    (fun k => cholAux (augCovFun P0scn) 3 k * cholAux (augCovFun P0scn) 2 k)]
  simp only [show augCovFun P0scn 3 2 = (0:ℝ) from rfl, Finset.sum_range_succ,
    Finset.sum_range_one, chA30, chA31, chA20, chA21, chA22]
  norm_num

lemma chA33 : cholAux (augCovFun P0scn) 3 3 = 1 := by
  rw [cholAux]
  rw [Finset.sum_attach (Finset.range 3) (fun k => (cholAux (augCovFun P0scn) 3 k) ^ 2)]
  simp only [show augCovFun P0scn 3 3 = (2:ℝ) from rfl, Finset.sum_range_succ,
    Finset.sum_range_one, chA30, chA31, chA32]
  norm_num [Real.sqrt_one]

lemma chA40 : cholAux (augCovFun P0scn) 4 0 = 0 := by
  rw [cholAux]
  simp only [show augCovFun P0scn 4 0 = (0:ℝ) from rfl, Finset.range_zero,
    Finset.attach_empty, Finset.sum_empty, chA00]
  norm_num

lemma chA41 : cholAux (augCovFun P0scn) 4 1 = 0 := by
  rw [cholAux]
  rw [Finset.sum_attach (Finset.range 1)
    (fun k => cholAux (augCovFun P0scn) 4 k * cholAux (augCovFun P0scn) 1 k)]
  simp only [show augCovFun P0scn 4 1 = (0:ℝ) from rfl, Finset.sum_range_one,
    chA40, chA10, chA11]
  norm_num

lemma chA42 : cholAux (augCovFun P0scn) 4 2 = 0 := by
  rw [cholAux]
  rw [Finset.sum_attach (Finset.range 2)
    (fun k => cholAux (augCovFun P0scn) 4 k * cholAux (augCovFun P0scn) 2 k)]
  simp only [show augCovFun P0scn 4 2 = (0:ℝ) from rfl, Finset.sum_range_succ,
    Finset.sum_range_one, chA40, chA41, chA20, chA21, chA22]
  norm_num

lemma chA43 : cholAux (augCovFun P0scn) 4 3 = 0 := by
  rw [cholAux]
  rw [Finset.sum_attach (Finset.range 3)
    (fun k => cholAux (augCovFun P0scn) 4 k * cholAux (augCovFun P0scn) 3 k)]
  simp only [show augCovFun P0scn 4 3 = (0:ℝ) from rfl, Finset.sum_range_succ,
    Finset.sum_range_one, chA40, chA41, chA42, chA30, chA31, chA32, chA33]
  norm_num

lemma chA44 : cholAux (augCovFun P0scn) 4 4 = 1 := by
  rw [cholAux]
  rw [Finset.sum_attach (Finset.range 4) (fun k => (cholAux (augCovFun P0scn) 4 k) ^ 2)]
  simp only [show augCovFun P0scn 4 4 = (1:ℝ) from rfl, Finset.sum_range_succ,
    Finset.sum_range_one, chA40, chA41, chA42, chA43]
  norm_num [Real.sqrt_one]

lemma predSigma_zero (X : Matrix (Fin 7) (Fin 15) ℝ) (r : Fin 5) (c : Fin 15) :
    PredictSigmaPoints X 0 r c = X (Fin.castLE (by norm_num) r) c := by
  unfold PredictSigmaPoints
  fin_cases r <;>
    simp [Matrix.of_apply, mul_zero, add_zero, sub_self, zero_mul] <;> rfl

lemma augMeanFun_castLE (x : Fin 5 → ℝ) (r : Fin 5) :
    augMeanFun x (Fin.castLE (by norm_num) r) = x r := by
  have h : ((Fin.castLE (show (5:ℕ) ≤ 7 by norm_num) r : Fin 7) : ℕ) = (r : ℕ) := rfl
  simp [augMeanFun, h, r.is_lt]

lemma sqrt_lambda_aug : Real.sqrt (lambda_ + (n_aug_ : ℝ)) = Real.sqrt 3 := by
  norm_num [lambda_, n_aug_]

lemma predMean (s : UKFState) (r : Fin 5) :
    (Prediction s 0).x_pred_ r = s.x_pred_ r := by
  show (PredictMeanAndCovariance (PredictSigmaPoints (GenerateSigmaPoints s) 0)).1 r
      = s.x_pred_ r
  simp only [PredictMeanAndCovariance]
  rw [sum15]
  simp only [predSigma_zero, GenerateSigmaPoints, sigmaColumns, Matrix.of_apply]
  norm_num [weightsVec, augMeanFun_castLE, lambda_, n_aug_]
  ring

lemma sInitScn_x (b : Bool) : (sInitScn b).x_pred_ = ![(0:ℝ), 0, 0, 0, 0] := rfl

lemma sInitScn_P (b : Bool) : (sInitScn b).P_pred_ = P0scn := rfl

lemma sInitScn_flag (b : Bool) : (sInitScn b).is_initialized_ = true := rfl

lemma sInitScn_ts (b : Bool) : (sInitScn b).previous_timestamp_ = 0 := rfl

lemma s0scn_laser (b : Bool) : (s0scn b).use_laser_ = b := rfl

lemma augMean_zero : ∀ i : Fin 7, augMeanFun ![(0:ℝ), 0, 0, 0, 0] i = 0 := by
  intro i
  fin_cases i <;> simp [augMeanFun]

lemma scnXp (b : Bool) (r : Fin 5) (c : Fin 15) :
    PredictSigmaPoints (GenerateSigmaPoints (sInitScn b)) 0 r c = XPscn r c := by
  rw [predSigma_zero, GenerateSigmaPoints, sInitScn_x, sInitScn_P]
  fin_cases r <;> fin_cases c <;>
    norm_num [sigmaColumns, XPscn, Matrix.of_apply, augMean_zero, sqrt_lambda_aug,
      Fin.coe_castLE, chA00, chA10, chA11, chA20, chA21, chA22, chA30, chA31,
      chA32, chA33, chA40, chA41, chA42, chA43, chA44, cholAux_upper]

lemma fv50 : ((0 : Fin 5) : ℕ) = 0 := rfl

lemma fv51 : ((1 : Fin 5) : ℕ) = 1 := rfl

lemma fv52 : ((2 : Fin 5) : ℕ) = 2 := rfl

lemma fv53 : ((3 : Fin 5) : ℕ) = 3 := rfl

lemma fv54 : ((4 : Fin 5) : ℕ) = 4 := rfl

lemma predMC_P_apply (Xp : Matrix (Fin 5) (Fin 15) ℝ) (r c : Fin 5) :
    (PredictMeanAndCovariance Xp).2 r c
      = ∑ i, weightsVec i *
          ((if r = 3 then normAngle (Xp 3 i - (PredictMeanAndCovariance Xp).1 3)
            else Xp r i - (PredictMeanAndCovariance Xp).1 r)
         * (if c = 3 then normAngle (Xp 3 i - (PredictMeanAndCovariance Xp).1 3)
            else Xp c i - (PredictMeanAndCovariance Xp).1 c)) := by
  have h : (PredictMeanAndCovariance Xp).2 r c
      = ∑ i, weightsVec i *
          (Function.update (fun ρ => Xp ρ i - (PredictMeanAndCovariance Xp).1 ρ) 3
             (normAngle (Xp 3 i - (PredictMeanAndCovariance Xp).1 3)) r
           * Function.update (fun ρ => Xp ρ i - (PredictMeanAndCovariance Xp).1 ρ) 3
             (normAngle (Xp 3 i - (PredictMeanAndCovariance Xp).1 3)) c) := rfl
  rw [h]
  apply Finset.sum_congr rfl
  intro i _
  rw [Function.update_apply, Function.update_apply]

lemma scnMean (b : Bool) :
    ∀ ρ : Fin 5,
      (PredictMeanAndCovariance
        (PredictSigmaPoints (GenerateSigmaPoints (sInitScn b)) 0)).1 ρ = 0 := by
  intro ρ
  have h : (PredictMeanAndCovariance
      (PredictSigmaPoints (GenerateSigmaPoints (sInitScn b)) 0)).1 ρ
      = (Prediction (sInitScn b) 0).x_pred_ ρ := rfl
  rw [h, predMean, sInitScn_x]
  fin_cases ρ <;> rfl

lemma scnP (b : Bool) :
    (Prediction (sInitScn b) 0).P_pred_ 0 0 = 1
    ∧ (Prediction (sInitScn b) 0).P_pred_ 0 1 = 0
    ∧ (Prediction (sInitScn b) 0).P_pred_ 1 0 = 0
    ∧ (Prediction (sInitScn b) 0).P_pred_ 1 1 = 1
    ∧ (Prediction (sInitScn b) 0).P_pred_ 3 0 = 1
    ∧ (Prediction (sInitScn b) 0).P_pred_ 3 1 = 0 := by
  have hP : (Prediction (sInitScn b) 0).P_pred_
      = (PredictMeanAndCovariance
          (PredictSigmaPoints (GenerateSigmaPoints (sInitScn b)) 0)).2 := rfl
  refine ⟨?_, ?_, ?_, ?_, ?_, ?_⟩ <;>
  · rw [hP, predMC_P_apply, sum15]
    norm_num [scnXp b, scnMean b, XPscn, Matrix.of_apply, normAngle_zero,
      normAngle_sqrt_three, normAngle_neg_sqrt_three, weightsVec, lambda_, n_aug_,
      Real.mul_self_sqrt, Fin.ext_iff, fv50, fv51, fv52, fv53, fv54]

lemma scnS (b : Bool) :
    Hlaser * (Prediction (sInitScn b) 0).P_pred_ * Hlaser.transpose + Rlaser
      = !![(1.0225 : ℝ), 0; 0, 1.0225] := by
  obtain ⟨h00, h01, h10, h11, h30, h31⟩ := scnP b
  ext i j
  fin_cases i <;> fin_cases j <;>
  · simp only [Matrix.add_apply, Matrix.mul_apply, Matrix.transpose_apply,
      Fin.sum_univ_five]
    simp [Hlaser, Rlaser, h00, h01, h10, h11]
    try norm_num

lemma scnSinv :
    (!![(1.0225 : ℝ), 0; 0, 1.0225])⁻¹ = !![400 / 409, 0; 0, 400 / 409] := by
  apply Matrix.inv_eq_right_inv
  ext i j
  fin_cases i <;> fin_cases j <;>
    simp [Matrix.mul_apply, Fin.sum_univ_two, Matrix.one_apply] <;> norm_num

lemma rawm2_at : ∀ i : Fin 2,
    m2scn.raw_measurements_ (Fin.castLE (by norm_num) i) = ![(4 : ℝ), 0] i := by
  intro i
  fin_cases i <;> rfl

lemma scnFinal (b : Bool) :
    (sFinalScn b).x_pred_ 0 = 1600 / 409 ∧ (sFinalScn b).x_pred_ 3 = 1600 / 409 := by
  have hdt : ((m2scn.timestamp_ - (sInitScn b).previous_timestamp_ : ℤ) : ℝ) / 1000000
      = 0 := by
    rw [sInitScn_ts]
    norm_num [m2scn]
  have hx : ∀ ρ : Fin 5, (Prediction (sInitScn b) 0).x_pred_ ρ = 0 := by
    intro ρ
    rw [predMean, sInitScn_x]
    fin_cases ρ <;> rfl
  obtain ⟨h00, h01, h10, h11, h30, h31⟩ := scnP b
  have hstep : sFinalScn b
      = { UpdateLidar (Prediction (sInitScn b)
            (((m2scn.timestamp_ - (sInitScn b).previous_timestamp_ : ℤ) : ℝ) / 1000000))
            m2scn with previous_timestamp_ := m2scn.timestamp_ } := rfl
  rw [hstep, hdt]
  constructor <;>
  · show (UpdateLidar (Prediction (sInitScn b) 0) m2scn).x_pred_ _ = 1600 / 409
    simp only [UpdateLidar]
    rw [scnS b, scnSinv]
    simp only [Matrix.mulVec, Matrix.dotProduct, Matrix.mul_apply,
      Matrix.transpose_apply, Fin.sum_univ_two, Fin.sum_univ_five]
    simp [Hlaser, hx, h00, h01, h10, h11, h30, h31, rawm2_at]
    norm_num [show m2scn.raw_measurements_ 0 = (4 : ℝ) from rfl]

/-- C1: the claim says a measurement whose sensor toggle is disabled is
ignored after warm-up, leaving `x_pred_` and `P_pred_` unchanged.  The code
never reads `use_laser_`/`use_radar_` in `ProcessMeasurement`: with
`use_laser_ = false`, the second (lidar) measurement of the concrete run
still triggers `Prediction` and `UpdateLidar`, moving the state's first
component from 0 to 1600/409 ≠ 0. -/
theorem c1_toggle_not_consulted :
    (s0scn false).use_laser_ = false
    ∧ (sInitScn false).x_pred_ 0 = 0
    ∧ (sFinalScn false).x_pred_ 0 = 1600 / 409
    ∧ (sFinalScn false).x_pred_ 0 ≠ (sInitScn false).x_pred_ 0 := by
  refine ⟨rfl, by rw [sInitScn_x]; rfl, (scnFinal false).1, ?_⟩
  rw [(scnFinal false).1, sInitScn_x]
  norm_num

/-- C2 counterexample: the heading component `x_pred_ 3` of a state reached
by two `ProcessMeasurement` calls equals 1600/409 > π, so it is not kept in
(-π, π]. -/
theorem c2_counterexample :
    ¬(-Real.pi < (sFinalScn true).x_pred_ 3
      ∧ (sFinalScn true).x_pred_ 3 ≤ Real.pi) := by
  rw [(scnFinal true).2]
  intro h
  have h2 := h.2
  have h3 := Real.pi_lt_d2
  linarith

/-- C2 amended: the wrap loops keep every normalized residual in [-π, π],
but the persistent heading `x_pred_ 3` itself is never normalized, and a
reachable state has `x_pred_ 3 > π`. -/
theorem c2_amended_residuals_only :
    (∀ θ : ℝ, -Real.pi ≤ normAngle θ ∧ normAngle θ ≤ Real.pi)
    ∧ Real.pi < (sFinalScn true).x_pred_ 3 := by
  refine ⟨fun θ => ⟨normAngle_ge θ, normAngle_le θ⟩, ?_⟩
  rw [(scnFinal true).2]
  have h3 := Real.pi_lt_d2
  linarith

/-- C3: the initialization branch of `ProcessMeasurement` leaves `P_pred_`
exactly as the constructor left it (arbitrary unspecified contents `P0`),
while setting the timestamp and the initialized flag; no assignment to the
covariance happens before the first prediction cycle. -/
theorem c3_init_preserves_covariance (x0 : Fin 5 → ℝ)
    (P0 : Matrix (Fin 5) (Fin 5) ℝ) (Xp0 : Matrix (Fin 5) (Fin 15) ℝ)
    (Xa0 : Matrix (Fin 7) (Fin 15) ℝ) (w0 : Fin 15 → ℝ) (t0 : ℤ)
    (m : MeasurementPackage) :
    (ProcessMeasurement (mkUKF x0 P0 Xp0 Xa0 w0 t0) m).P_pred_ = P0
    ∧ (ProcessMeasurement (mkUKF x0 P0 Xp0 Xa0 w0 t0) m).is_initialized_ = true
    ∧ (ProcessMeasurement (mkUKF x0 P0 Xp0 Xa0 w0 t0) m).previous_timestamp_
        = m.timestamp_ := by
  cases hm : m.sensor_type_ <;> simp [ProcessMeasurement, mkUKF, hm]

/-- C4 counterexample: the wrap loops map -π to itself, and -π is not in
the claimed interval (-π, π]. -/
theorem c4_counterexample :
    normAngle (-Real.pi) = -Real.pi ∧ ¬(-Real.pi < normAngle (-Real.pi)) := by
  have h : normAngle (-Real.pi) = -Real.pi :=
    normAngle_of_mem le_rfl (by have := Real.pi_pos; linarith)
  exact ⟨h, by rw [h]; exact lt_irrefl _⟩

/-- C4 amended: the repeated ±2π adjustment lands in the closed interval
[-π, π] (not the half-open (-π, π]), and it is idempotent. -/
theorem c4_amended (θ : ℝ) :
    (-Real.pi ≤ normAngle θ ∧ normAngle θ ≤ Real.pi)
    ∧ normAngle (normAngle θ) = normAngle θ :=
  ⟨⟨normAngle_ge θ, normAngle_le θ⟩, normAngle_idem θ⟩

/-- C5: a prediction cycle with Δt = 0 leaves the state mean unchanged for
every filter state (hence every mean and covariance), and the propagated
sigma points with Δt = 0 are exactly the first five rows of the augmented
sigma points — the process-noise rows 5 and 6 contribute nothing. -/
theorem c5_prediction_dt_zero (s : UKFState) (r : Fin 5) :
    (Prediction s 0).x_pred_ r = s.x_pred_ r
    ∧ ∀ (X : Matrix (Fin 7) (Fin 15) ℝ) (c : Fin 15),
        PredictSigmaPoints X 0 r c = X (Fin.castLE (by norm_num) r) c :=
  ⟨predMean s r, fun X c => predSigma_zero X r c⟩

/-- C6: on the first call `ProcessMeasurement` seeds the position from the
measurement (polar-to-Cartesian for radar, raw x/y for lidar), leaves
speed, heading and heading rate 0, records the timestamp, marks the filter
initialized, and performs no prediction or correction (covariance and
predicted sigma points untouched). -/
theorem c6_first_call_seeds (s : UKFState) (m : MeasurementPackage)
    (h : s.is_initialized_ = false) :
    (m.sensor_type_ = SensorType.RADAR →
      (ProcessMeasurement s m).x_pred_
        = ![m.raw_measurements_ 0 * Real.cos (m.raw_measurements_ 1),
            m.raw_measurements_ 0 * Real.sin (m.raw_measurements_ 1), 0, 0, 0])
    ∧ (m.sensor_type_ = SensorType.LASER →
      (ProcessMeasurement s m).x_pred_
        = ![m.raw_measurements_ 0, m.raw_measurements_ 1, 0, 0, 0])
    ∧ (ProcessMeasurement s m).previous_timestamp_ = m.timestamp_
    ∧ (ProcessMeasurement s m).is_initialized_ = true
    ∧ (ProcessMeasurement s m).P_pred_ = s.P_pred_
    ∧ (ProcessMeasurement s m).Xsig_pred_ = s.Xsig_pred_ := by
  cases hm : m.sensor_type_ <;> simp [ProcessMeasurement, h, hm]

/-- C6 witness: the theorem applied to a concrete fresh filter and a
concrete radar measurement (range 2, bearing 0, timestamp 5). -/
theorem c6_witness :
    cs6.is_initialized_ = false
    ∧ (ProcessMeasurement cs6 cm6).x_pred_
        = ![2 * Real.cos 0, 2 * Real.sin 0, 0, 0, 0]
    ∧ (ProcessMeasurement cs6 cm6).previous_timestamp_ = 5
    ∧ (ProcessMeasurement cs6 cm6).is_initialized_ = true := by
  refine ⟨rfl, ?_, ?_, ?_⟩
  · exact (c6_first_call_seeds cs6 cm6 rfl).1 rfl
  · exact (c6_first_call_seeds cs6 cm6 rfl).2.2.1
  · exact (c6_first_call_seeds cs6 cm6 rfl).2.2.2.1

/-- C7: for a predicted sigma point with `p_x = p_y = 0` the radar mapping
computes range 0 and divides the range-rate numerator by that zero range
with no guard; in the real-number model the unguarded division by zero
yields 0 regardless of the speed. -/
theorem c7_radar_range_rate_unguarded (Xp : Matrix (Fin 5) (Fin 15) ℝ)
    (i : Fin 15) (hx : Xp 0 i = 0) (hy : Xp 1 i = 0) :
    radarZsig Xp 0 i = 0
    ∧ radarZsig Xp 2 i
        = (Xp 0 i * (Real.cos (Xp 3 i) * Xp 2 i)
            + Xp 1 i * (Real.sin (Xp 3 i) * Xp 2 i)) / 0
    ∧ radarZsig Xp 2 i = 0 := by
  unfold radarZsig
  simp [Matrix.of_apply, hx, hy]

/-- C7 witness: the theorem applied to a concrete sigma matrix with
`p_x = p_y = 0` and speed 5. -/
theorem c7_witness :
    Xw7 0 0 = 0 ∧ Xw7 1 0 = 0 ∧ radarZsig Xw7 0 0 = 0 ∧ radarZsig Xw7 2 0 = 0 := by
  have h := c7_radar_range_rate_unguarded Xw7 0 rfl rfl
  exact ⟨rfl, rfl, h.1, h.2.2⟩

/-- C8: with λ = 3 - 7 = -4, the weight vector has `weightsVec 0 = -4/3`,
all other weights 1/6, and the fifteen weights sum to exactly 1. -/
theorem c8_weights :
    weightsVec 0 = -(4 / 3)
    ∧ (∀ i : Fin 15, i ≠ 0 → weightsVec i = 1 / 6)
    ∧ ∑ i, weightsVec i = 1 := by
  refine ⟨?_, ?_, ?_⟩
  · norm_num [weightsVec, lambda_, n_aug_]
  · intro i hi
    have hv : (i : ℕ) ≠ 0 := by
      simpa [Fin.ext_iff] using hi
    norm_num [weightsVec, hv, lambda_, n_aug_]
  · rw [sum15]
    norm_num [weightsVec, lambda_, n_aug_]

/-- C8 witness: the nonzero-index clause of the theorem at index 3. -/
theorem c8_witness : weightsVec 3 = 1 / 6 := c8_weights.2.1 3 (by decide)

/-- C9: the CTRV propagation divides by the yaw rate only in the branch
guarded by `0.001 < |yawd|`; when `|yawd| ≤ 0.001` the position update is
the division-free Euler form. -/
theorem c9_yaw_rate_guard (X : Matrix (Fin 7) (Fin 15) ℝ) (dt : ℝ) (i : Fin 15) :
    (¬ 0.001 < |X 4 i| →
      PredictSigmaPoints X dt 0 i
        = X 0 i + X 2 i * dt * Real.cos (X 3 i)
          + 0.5 * X 5 i * (dt * dt) * Real.cos (X 3 i)
      ∧ PredictSigmaPoints X dt 1 i
        = X 1 i + X 2 i * dt * Real.sin (X 3 i)
          + 0.5 * X 5 i * (dt * dt) * Real.sin (X 3 i))
    ∧ (0.001 < |X 4 i| →
      PredictSigmaPoints X dt 0 i
        = X 0 i + X 2 i / X 4 i * (Real.sin (X 3 i + X 4 i * dt) - Real.sin (X 3 i))
          + 0.5 * X 5 i * (dt * dt) * Real.cos (X 3 i)
      ∧ PredictSigmaPoints X dt 1 i
        = X 1 i + X 2 i / X 4 i * (Real.cos (X 3 i) - Real.cos (X 3 i + X 4 i * dt))
          + 0.5 * X 5 i * (dt * dt) * Real.sin (X 3 i)) := by
  constructor <;> intro h <;> constructor <;>
    simp [PredictSigmaPoints, Matrix.of_apply, h]

/-- C9 witness: the Euler branch at yaw rate 0 and the closed-form branch
at yaw rate 1, both with Δt = 1 and column 0. -/
theorem c9_witness :
    (¬ (0.001 : ℝ) < |XwA 4 0|
      ∧ PredictSigmaPoints XwA 1 0 0
          = XwA 0 0 + XwA 2 0 * 1 * Real.cos (XwA 3 0)
            + 0.5 * XwA 5 0 * (1 * 1) * Real.cos (XwA 3 0))
    ∧ ((0.001 : ℝ) < |XwB 4 0|
      ∧ PredictSigmaPoints XwB 1 0 0
          = XwB 0 0 + XwB 2 0 / XwB 4 0
              * (Real.sin (XwB 3 0 + XwB 4 0 * 1) - Real.sin (XwB 3 0))
            + 0.5 * XwB 5 0 * (1 * 1) * Real.cos (XwB 3 0)) := by
  have hA : ¬ (0.001 : ℝ) < |XwA 4 0| := by norm_num [XwA, Matrix.of_apply]
  have hB : (0.001 : ℝ) < |XwB 4 0| := by norm_num [XwB, Matrix.of_apply]
  exact ⟨⟨hA, ((c9_yaw_rate_guard XwA 1 0).1 hA).1⟩,
    ⟨hB, ((c9_yaw_rate_guard XwB 1 0).2 hB).1⟩⟩

/-- C10: for every augmented mean and every lower factor `L`, the generated
sigma matrix has column 0 equal to the mean, columns 1..7 equal to
mean + √3·L[:,i], and columns 8..14 equal to mean − √3·L[:,i], where
√(λ + n_aug) = √3. -/
theorem c10_sigma_columns (xa : Fin 7 → ℝ) (L : ℕ → ℕ → ℝ) (r : Fin 7) (i : Fin 7) :
    sigmaColumns xa L r 0 = xa r
    ∧ sigmaColumns xa L r ⟨(i : ℕ) + 1, by omega⟩ = xa r + Real.sqrt 3 * L r i
    ∧ sigmaColumns xa L r ⟨(i : ℕ) + 8, by omega⟩ = xa r - Real.sqrt 3 * L r i
    ∧ Real.sqrt (lambda_ + (n_aug_ : ℝ)) = Real.sqrt 3 := by
  refine ⟨by simp [sigmaColumns], ?_, ?_, sqrt_lambda_aug⟩
  · have h1 : ((⟨(i : ℕ) + 1, by omega⟩ : Fin 15) : ℕ) = (i : ℕ) + 1 := rfl
    simp only [sigmaColumns, Matrix.of_apply, h1]
    rw [if_neg (by omega), if_pos (by omega : (i : ℕ) + 1 ≤ 7), sqrt_lambda_aug]
    norm_num
  · have h1 : ((⟨(i : ℕ) + 8, by omega⟩ : Fin 15) : ℕ) = (i : ℕ) + 8 := rfl
    simp only [sigmaColumns, Matrix.of_apply, h1]
    rw [if_neg (by omega), if_neg (by omega : ¬ (i : ℕ) + 8 ≤ 7), sqrt_lambda_aug]
    norm_num
